import Mathlib

/-!
Shallow embedding of the access-review evaluation pipeline of the `sap`
compliance application, covering:

* the CSV import route (`src/app/api/reviews/[id]/import/route.ts`): identity
  matching against the employee roster, risk tagging (privileged access, SoD
  conflicts, dormancy), per-record persistence with error accumulation, and
  the DRAFT to DATA_COLLECTION transition;
* the finding decision route (`src/app/api/findings/[id]/route.ts`): the
  decision to status mapping and the review-cycle count aggregator;
* the application create route (`src/app/api/applications/route.ts`): the
  profile completeness scorer;
* the SoD conflict create route
  (`src/app/api/applications/[id]/sod-conflicts/route.ts`).

Database reads are modelled as in-memory lists passed explicitly; each route
handler becomes a pure function from the relevant slice of state to a result
together with the updated state. Per-record insert failures (the only
exceptions caught inside the import loop) are modelled by an oracle
`insertOk : ImportRecord → Bool` supplied to the pipeline. JavaScript date
parsing is modelled by an abstract `dateParse : String → Option Int` giving
the epoch-millisecond value, `none` standing for an invalid date (`NaN`),
whose comparisons are all false in JavaScript.
-/

namespace Sap

/-- Review cycle statuses, from the `review_status` enum of the schema. -/
inductive ReviewStatus where
  | DRAFT
  | DATA_COLLECTION
  | ANALYSIS_PENDING
  | ANALYSIS_COMPLETE
  | IN_REVIEW
  | PENDING_ATTESTATION
  | COMPLETED
  | ARCHIVED
deriving DecidableEq, Repr

/-- Access-record review statuses, from the `access_record_status` enum. -/
inductive AccessRecordStatus where
  | PENDING
  | AUTO_APPROVED
  | NEEDS_REVIEW
  | APPROVED
  | REMEDIATION
  | EXCEPTION
deriving DecidableEq, Repr

/-- Finding severities, from the `severity` enum. -/
inductive Severity where
  | CRITICAL
  | HIGH
  | MEDIUM
  | LOW
  | INFO
deriving DecidableEq, Repr

/-- Finding statuses, from the `finding_status` enum. -/
inductive FindingStatus where
  | OPEN
  | IN_REVIEW
  | PENDING_REMEDIATION
  | REMEDIATED
  | EXCEPTION_APPROVED
  | DISMISSED
  | CLOSED
deriving DecidableEq, Repr

/-- Finding decisions, from the `decision` enum. -/
inductive Decision where
  | REMEDIATE
  | EXCEPTION
  | DISMISS
deriving DecidableEq, Repr

/-- An employee roster row, the fields used by the identity matcher. -/
structure Employee where
  id : String
  email : Option String
  employeeId : Option String
deriving DecidableEq, Repr

/-- An application role row, the fields used by the risk tagger. -/
structure AppRole where
  id : String
  name : String
  isPrivileged : Bool
deriving DecidableEq, Repr

/-- An SoD conflict rule as loaded by the import route (role id pair). -/
structure SodRule where
  role1Id : String
  role2Id : String
deriving DecidableEq, Repr

/-- One parsed CSV row, after zod validation (`importSchema.records`). -/
structure ImportRecord where
  username : String
  email : Option String
  displayName : Option String
  roles : Option (List String)
  lastLoginAt : Option String
  grantDate : Option String
deriving DecidableEq, Repr

/-- A persisted `user_access_records` row, the fields set by the import. -/
structure UserAccessRecord where
  reviewCycleId : String
  username : String
  email : Option String
  displayName : Option String
  employeeId : Option String
  roles : List String
  hasPrivilegedAccess : Bool
  hasSodConflict : Bool
  isDormant : Bool
  reviewStatus : AccessRecordStatus
deriving DecidableEq, Repr

/-- The fields of a `review_cycles` row touched by the import route. -/
structure ReviewCycle where
  id : String
  status : ReviewStatus
  startedAt : Option Int
  snapshotDate : Option Int
deriving DecidableEq, Repr

/--
The employee map of the route: each employee registers its lowercased
`email` and lowercased `employeeId` as keys (`employeeMap.set`), later
entries overwriting earlier ones, so a `get` returns the last employee in
roster order that registered the key.
-/
def employeeMapGet (emps : List Employee) (key : String) : Option Employee :=
  emps.reverse.find? fun e =>
    (match e.email with
     | some s => s.toLower == key
     | none => false) ||
    (match e.employeeId with
     | some s => s.toLower == key
     | none => false)

/--
The role-name map of the route: keyed by lowercased role name, last
writer wins.
-/
def roleNameMapGet (catalog : List AppRole) (key : String) : Option AppRole :=
  catalog.reverse.find? fun r => r.name.toLower == key

/--
Identity matching from the import loop: match by lowercased email first,
then fall back to matching the lowercased username against the map (which
is keyed by email and employeeId).
-/
def matchEmployee (emps : List Employee) (r : ImportRecord) : Option Employee :=
  let byEmail :=
    match r.email with
    | some e => employeeMapGet emps e.toLower
    | none => none
  match byEmail with
  | some emp => some emp
  | none => employeeMapGet emps r.username.toLower

/--
The matched role ids of a record: for each held role name, case-insensitive
lookup in the role catalog; unmatched names are dropped.
-/
def matchedRoleIds (catalog : List AppRole) (names : List String) : List String :=
  names.filterMap fun n => (roleNameMapGet catalog n.toLower).map (·.id)

/-- The privileged flag: some matched role has `isPrivileged`. -/
def computePrivileged (catalog : List AppRole) (names : List String) : Bool :=
  names.any fun n =>
    match roleNameMapGet catalog n.toLower with
    | some role => role.isPrivileged
    | none => false

/--
The SoD flag: the loop over `sodConflicts` breaks at the first rule whose
two role ids are both in the matched-role-id list.
-/
def computeSod (rules : List SodRule) (roleIds : List String) : Bool :=
  rules.any fun c => roleIds.contains c.role1Id && roleIds.contains c.role2Id

/-- Milliseconds per day, the divisor `1000 * 60 * 60 * 24` of the route. -/
def msPerDay : Int := 1000 * 60 * 60 * 24

/--
The dormancy flag: with a last-login string present and parseable,
`Math.floor((now - lastLogin) / msPerDay) >= 90`; an absent string, or an
invalid date (`NaN`, whose comparisons are false), gives `false`.
`Int.fdiv` is floor division, matching `Math.floor` of the real quotient.
-/
def computeDormant (dateParse : String → Option Int) (now : Int)
    (lastLoginAt : Option String) : Bool :=
  match lastLoginAt with
  | none => false
  | some s =>
    match dateParse s with
    | none => false
    | some t => decide (90 ≤ (now - t).fdiv msPerDay)

/-- Everything the import route loads once per call. -/
structure ImportEnv where
  employees : List Employee
  catalog : List AppRole
  sodRules : List SodRule
  dateParse : String → Option Int
  now : Int

/-- The `user_access_records` row the import loop inserts for one record. -/
def buildAccessRecord (env : ImportEnv) (reviewCycleId : String)
    (r : ImportRecord) : UserAccessRecord :=
  let userRoles := r.roles.getD []
  { reviewCycleId := reviewCycleId
    username := r.username
    email := r.email
    displayName := r.displayName
    employeeId := (matchEmployee env.employees r).map (·.id)
    roles := userRoles
    hasPrivilegedAccess := computePrivileged env.catalog userRoles
    hasSodConflict := computeSod env.sodRules (matchedRoleIds env.catalog userRoles)
    isDormant := computeDormant env.dateParse env.now r.lastLoginAt
    reviewStatus := .PENDING }

/-- The loop accumulators of the import route. -/
structure ImportLoopState where
  matched : Nat
  unmatched : Nat
  inserted : List UserAccessRecord
  errors : Nat
deriving Repr

/--
One iteration of the import loop: count the record as matched or unmatched
(before the insert is attempted), then either persist the built record or
record an error entry, per the `insertOk` oracle.
-/
def importStep (env : ImportEnv) (insertOk : ImportRecord → Bool)
    (reviewCycleId : String) (s : ImportLoopState) (r : ImportRecord) :
    ImportLoopState :=
  let s :=
    if (matchEmployee env.employees r).isSome then
      { s with matched := s.matched + 1 }
    else
      { s with unmatched := s.unmatched + 1 }
  if insertOk r then
    { s with inserted := s.inserted ++ [buildAccessRecord env reviewCycleId r] }
  else
    { s with errors := s.errors + 1 }

/-- The JSON result payload of a successful import call. -/
structure ImportResult where
  imported : Nat
  matched : Nat
  unmatched : Nat
  errors : Nat
deriving DecidableEq, Repr

/-- The error responses of the import route relevant to the model. -/
inductive ImportError where
  | invalidState
deriving DecidableEq, Repr

/-- The database state the import route touches. -/
structure ImportDb where
  review : ReviewCycle
  accessRecords : List UserAccessRecord
deriving DecidableEq, Repr

/--
The import route handler (`POST /api/reviews/[id]/import`), after
authentication and zod validation: reject unless the review is in DRAFT or
DATA_COLLECTION; otherwise run the per-record loop, then, when the review
was DRAFT, set it to DATA_COLLECTION stamping `startedAt` and
`snapshotDate`, and return the counts.
-/
def importPOST (env : ImportEnv) (insertOk : ImportRecord → Bool)
    (db : ImportDb) (records : List ImportRecord) :
    Except ImportError ImportResult × ImportDb :=
  if db.review.status = .DRAFT ∨ db.review.status = .DATA_COLLECTION then
    let s := records.foldl (importStep env insertOk db.review.id)
      { matched := 0, unmatched := 0, inserted := [], errors := 0 }
    let review' :=
      if db.review.status = .DRAFT then
        { db.review with
            status := .DATA_COLLECTION
            startedAt := some env.now
            snapshotDate := some env.now }
      else db.review
    (.ok { imported := s.inserted.length, matched := s.matched,
           unmatched := s.unmatched, errors := s.errors },
     { review := review', accessRecords := db.accessRecords ++ s.inserted })
  else
    (.error .invalidState, db)

/-! Finding decision route (`PUT /api/findings/[id]`). -/

/-- The fields of a `findings` row touched by the decision route. -/
structure Finding where
  reviewCycleId : String
  severity : Severity
  status : FindingStatus
  decision : Option Decision
  decidedById : Option String
  decidedAt : Option Int
  decisionJustification : Option String
  compensatingControls : Option String
  remediationDueDate : Option String
  remediationTicketId : Option String
  exceptionExpiryDate : Option String
  exceptionApprovedById : Option String
  exceptionApprovedAt : Option Int
deriving DecidableEq, Repr

/--
The zod-validated body of a finding update. An outer `none` is an absent
field (`undefined`, leaving the column untouched); for the nullable fields
an inner `none` is an explicit `null`.
-/
structure FindingUpdatePayload where
  status : Option FindingStatus
  decision : Option Decision
  decisionJustification : Option (Option String)
  compensatingControls : Option (Option String)
  remediationDueDate : Option (Option String)
  remediationTicketId : Option (Option String)
  exceptionExpiryDate : Option (Option String)
deriving Repr

/--
The update-object construction of the decision route: an explicit `status`
is applied first; a `decision` stamps `decidedById`/`decidedAt` and derives
the status (REMEDIATE to PENDING_REMEDIATION; EXCEPTION to
EXCEPTION_APPROVED, also stamping the exception approver fields; DISMISS to
DISMISSED); the remaining present fields are copied through.
-/
def applyFindingUpdate (userId : String) (now : Int) (f : Finding)
    (p : FindingUpdatePayload) : Finding :=
  let f := match p.status with
    | some s => { f with status := s }
    | none => f
  let f := match p.decision with
    | some d =>
      let f := { f with decision := some d, decidedById := some userId,
                        decidedAt := some now }
      match d with
      | .REMEDIATE => { f with status := .PENDING_REMEDIATION }
      | .EXCEPTION => { f with status := .EXCEPTION_APPROVED,
                               exceptionApprovedById := some userId,
                               exceptionApprovedAt := some now }
      | .DISMISS => { f with status := .DISMISSED }
    | none => f
  let f := match p.decisionJustification with
    | some v => { f with decisionJustification := v }
    | none => f
  let f := match p.compensatingControls with
    | some v => { f with compensatingControls := v }
    | none => f
  let f := match p.remediationDueDate with
    | some v => { f with remediationDueDate := v }
    | none => f
  let f := match p.remediationTicketId with
    | some v => { f with remediationTicketId := v }
    | none => f
  match p.exceptionExpiryDate with
  | some v => { f with exceptionExpiryDate := v }
  | none => f

/-! Finding aggregator (`updateReviewCycleCounts`). -/

/--
Whether a finding status still counts toward the per-severity rollups:
the SQL filter excludes REMEDIATED, DISMISSED and CLOSED.
-/
def isLiveStatus (s : FindingStatus) : Bool :=
  !(s = .REMEDIATED ∨ s = .DISMISSED ∨ s = .CLOSED : Bool)

/-- The five rollup counters stored on a review cycle. -/
structure CycleCounts where
  totalFindings : Nat
  criticalFindings : Nat
  highFindings : Nat
  mediumFindings : Nat
  lowFindings : Nat
deriving DecidableEq, Repr

/--
The aggregation query of `updateReviewCycleCounts` over the findings of one
review cycle: `count(*)` and four filtered counts, one per severity, each
restricted to statuses outside REMEDIATED/DISMISSED/CLOSED.
-/
def updateReviewCycleCounts (fs : List Finding) : CycleCounts :=
  { totalFindings := fs.length
    criticalFindings :=
      fs.countP fun f => decide (f.severity = .CRITICAL) && isLiveStatus f.status
    highFindings :=
      fs.countP fun f => decide (f.severity = .HIGH) && isLiveStatus f.status
    mediumFindings :=
      fs.countP fun f => decide (f.severity = .MEDIUM) && isLiveStatus f.status
    lowFindings :=
      fs.countP fun f => decide (f.severity = .LOW) && isLiveStatus f.status }

/-! Application create route (`POST /api/applications`). -/

/-- The zod-validated body of an application create request, the fields the
completeness scorer reads. -/
structure AppCreateData where
  name : String
  description : Option String
  vendor : Option String
  systemOwner : Option String
  businessUnit : Option String
  purpose : Option String
  typicalUsers : Option String
  sensitiveFunctions : Option String
  accessRequestProcess : Option String
  frameworkId : Option String
deriving DecidableEq, Repr

/-- JavaScript `String.prototype.trim`: strip leading and trailing
whitespace characters. -/
def jsTrim (s : String) : String :=
  ⟨((s.data.dropWhile Char.isWhitespace).reverse.dropWhile
      Char.isWhitespace).reverse⟩

/--
JavaScript truthiness-plus-trim test of the scorer:
`value && (typeof value !== 'string' || value.trim().length > 0)` — all the
tracked fields are strings, so a present value counts iff it is non-empty
and non-blank after trimming.
-/
def fieldCounted (v : Option String) : Bool :=
  match v with
  | none => false
  | some s => !s.data.isEmpty && !(jsTrim s).data.isEmpty

/--
The completeness scorer `calculateCompleteness`: sum the weight of every
tracked request field that passes `fieldCounted`, over the fixed table
name 10, description 10, vendor 10, systemOwner 10, businessUnit 10,
purpose 15, typicalUsers 10, sensitiveFunctions 10, accessRequestProcess 5,
frameworkId 10.
-/
def calculateCompleteness (d : AppCreateData) : Nat :=
  (if fieldCounted (some d.name) then 10 else 0) +
  (if fieldCounted d.description then 10 else 0) +
  (if fieldCounted d.vendor then 10 else 0) +
  (if fieldCounted d.systemOwner then 10 else 0) +
  (if fieldCounted d.businessUnit then 10 else 0) +
  (if fieldCounted d.purpose then 15 else 0) +
  (if fieldCounted d.typicalUsers then 10 else 0) +
  (if fieldCounted d.sensitiveFunctions then 10 else 0) +
  (if fieldCounted d.accessRequestProcess then 5 else 0) +
  (if fieldCounted d.frameworkId then 10 else 0)

/-- The persisted `applications` row fields the create route sets that the
completeness claims mention. -/
structure PersistedApplication where
  name : String
  description : Option String
  vendor : Option String
  systemOwner : Option String
  businessUnit : Option String
  purpose : Option String
  typicalUsers : Option String
  sensitiveFunctions : Option String
  accessRequestProcess : Option String
  frameworkId : Option String
  profileCompleteness : Nat
deriving DecidableEq, Repr

/--
The application create handler after validation: when `frameworkId` is
absent (or falsy), substitute the system default framework id; the stored
completeness score is computed from the request data before that
substitution.
-/
def applicationsPOST (defaultFrameworkId : Option String)
    (d : AppCreateData) : PersistedApplication :=
  let fwToUse :=
    match d.frameworkId with
    | some f => if f.isEmpty then defaultFrameworkId else some f
    | none => defaultFrameworkId
  { name := d.name
    description := d.description
    vendor := d.vendor
    systemOwner := d.systemOwner
    businessUnit := d.businessUnit
    purpose := d.purpose
    typicalUsers := d.typicalUsers
    sensitiveFunctions := d.sensitiveFunctions
    accessRequestProcess := d.accessRequestProcess
    frameworkId := fwToUse
    profileCompleteness := calculateCompleteness d }

/-! SoD conflict create route
(`POST /api/applications/[id]/sod-conflicts`). -/

/-- An `application_roles` row as seen by the SoD create route. -/
structure RoleRow where
  id : String
  applicationId : String
deriving DecidableEq, Repr

/-- A persisted `sod_conflicts` row (the identity-bearing fields). -/
structure SodConflictRow where
  applicationId : String
  role1Id : String
  role2Id : String
deriving DecidableEq, Repr

/-- The rejection reasons of the SoD conflict create route. -/
inductive SodCreateError where
  | roleNotFound
  | sameRole
  | duplicatePair
deriving DecidableEq, Repr

/--
Two conflict rows reference the same unordered role pair within the same
application.
-/
def samePair (a b : SodConflictRow) : Prop :=
  a.applicationId = b.applicationId ∧
    ((a.role1Id = b.role1Id ∧ a.role2Id = b.role2Id) ∨
     (a.role1Id = b.role2Id ∧ a.role2Id = b.role1Id))

instance (a b : SodConflictRow) : Decidable (samePair a b) := by
  unfold samePair; infer_instance

/--
The SoD invariant of the data model: no row pairs a role with itself, and
no two rows reference the same unordered role pair within one application.
-/
def sodInvariant (rows : List SodConflictRow) : Prop :=
  (∀ r ∈ rows, r.role1Id ≠ r.role2Id) ∧
    rows.Pairwise fun a b => ¬ samePair a b

instance (rows : List SodConflictRow) : Decidable (sodInvariant rows) := by
  unfold sodInvariant
  infer_instance

/--
The SoD conflict create handler after validation: both roles must exist and
belong to the application; the two role ids must differ; no conflict row
may already pair them (in either orientation) for this application; then
the row is inserted.
-/
def sodConflictPOST (appId : String) (roles : List RoleRow)
    (rows : List SodConflictRow) (role1Id role2Id : String) :
    Except SodCreateError (List SodConflictRow) :=
  if (roles.find? fun r =>
        r.id == role1Id && r.applicationId == appId).isNone ||
     (roles.find? fun r =>
        r.id == role2Id && r.applicationId == appId).isNone then
    .error .roleNotFound
  else if role1Id == role2Id then
    .error .sameRole
  else if rows.any fun c =>
      c.applicationId == appId &&
        ((c.role1Id == role1Id && c.role2Id == role2Id) ||
         (c.role1Id == role2Id && c.role2Id == role1Id)) then
    .error .duplicatePair
  else
    .ok (rows ++ [{ applicationId := appId, role1Id := role1Id,
                    role2Id := role2Id }])

/-! Helper lemmas about the import loop. -/

theorem importStep_matched_unmatched (env : ImportEnv)
    (insertOk : ImportRecord → Bool) (rid : String) (s : ImportLoopState)
    (r : ImportRecord) :
    (importStep env insertOk rid s r).matched +
      (importStep env insertOk rid s r).unmatched =
      s.matched + s.unmatched + 1 := by
  unfold importStep
  split <;> split <;> simp <;> omega

theorem importStep_inserted_errors (env : ImportEnv)
    (insertOk : ImportRecord → Bool) (rid : String) (s : ImportLoopState)
    (r : ImportRecord) :
    (importStep env insertOk rid s r).inserted.length +
      (importStep env insertOk rid s r).errors =
      s.inserted.length + s.errors + 1 := by
  unfold importStep
  split <;> split <;> simp <;> omega

theorem importFoldl_counts (env : ImportEnv) (insertOk : ImportRecord → Bool)
    (rid : String) (records : List ImportRecord) (s : ImportLoopState) :
    (records.foldl (importStep env insertOk rid) s).matched +
        (records.foldl (importStep env insertOk rid) s).unmatched =
      s.matched + s.unmatched + records.length ∧
    (records.foldl (importStep env insertOk rid) s).inserted.length +
        (records.foldl (importStep env insertOk rid) s).errors =
      s.inserted.length + s.errors + records.length := by
  induction records generalizing s with
  | nil => simp
  | cons r rs ih =>
    have h := ih (importStep env insertOk rid s r)
    simp only [List.foldl_cons, List.length_cons]
    refine ⟨?_, ?_⟩
    · have := importStep_matched_unmatched env insertOk rid s r
      omega
    · have := importStep_inserted_errors env insertOk rid s r
      omega

theorem importStep_allOk (env : ImportEnv) (rid : String)
    (s : ImportLoopState) (r : ImportRecord) :
    (importStep env (fun _ => true) rid s r).inserted =
        s.inserted ++ [buildAccessRecord env rid r] ∧
      (importStep env (fun _ => true) rid s r).errors = s.errors := by
  unfold importStep
  split <;> simp

theorem importFoldl_allOk (env : ImportEnv) (rid : String)
    (records : List ImportRecord) (s : ImportLoopState) :
    (records.foldl (importStep env (fun _ => true) rid) s).inserted =
        s.inserted ++ records.map (buildAccessRecord env rid) ∧
      (records.foldl (importStep env (fun _ => true) rid) s).errors =
        s.errors := by
  induction records generalizing s with
  | nil => simp
  | cons r rs ih =>
    have h := ih (importStep env (fun _ => true) rid s r)
    have hs := importStep_allOk env rid s r
    simp only [List.foldl_cons, List.map_cons]
    refine ⟨?_, ?_⟩
    · rw [h.1, hs.1]; simp
    · rw [h.2, hs.2]

/--
C1: for every list of N well-formed import records with no duplicate
usernames (persistence succeeding for every record), running the Import
Pipeline on a ReviewCycle in DRAFT or DATA_COLLECTION status inserts
exactly N UserAccessRecords for that review, each with reviewStatus
PENDING, and returns a result with imported = N and
matched + unmatched = N.
-/
theorem import_wellformed_inserts_all (env : ImportEnv) (db : ImportDb)
    (records : List ImportRecord)
    (hst : db.review.status = .DRAFT ∨ db.review.status = .DATA_COLLECTION)
    (_hnodup : records.Pairwise fun a b => a.username ≠ b.username) :
    ∃ m u : Nat,
      (importPOST env (fun _ => true) db records).1 =
        .ok { imported := records.length, matched := m, unmatched := u,
              errors := 0 } ∧
      m + u = records.length ∧
      (importPOST env (fun _ => true) db records).2.accessRecords =
        db.accessRecords ++ records.map (buildAccessRecord env db.review.id) ∧
      (records.map (buildAccessRecord env db.review.id)).length =
        records.length ∧
      ∀ rec ∈ records.map (buildAccessRecord env db.review.id),
        rec.reviewStatus = .PENDING ∧ rec.reviewCycleId = db.review.id := by
  have hcounts := (importFoldl_counts env (fun _ => true) db.review.id records
    { matched := 0, unmatched := 0, inserted := [], errors := 0 }).1
  have hall := importFoldl_allOk env db.review.id records
    { matched := 0, unmatched := 0, inserted := [], errors := 0 }
  simp only [List.nil_append] at hall
  simp only at hcounts
  unfold importPOST
  rw [if_pos hst]
  refine ⟨(records.foldl (importStep env (fun _ => true) db.review.id)
      { matched := 0, unmatched := 0, inserted := [], errors := 0 }).matched,
    (records.foldl (importStep env (fun _ => true) db.review.id)
      { matched := 0, unmatched := 0, inserted := [], errors := 0 }).unmatched,
    ?_, ?_, ?_, ?_, ?_⟩
  · dsimp only
    rw [hall.1, hall.2, List.length_map]
  · omega
  · dsimp only
    rw [hall.1]
  · simp
  · intro rec hrec
    simp only [List.mem_map] at hrec
    obtain ⟨r, _, hr⟩ := hrec
    subst hr
    exact ⟨rfl, rfl⟩

/-- C1 witness: a concrete two-record import on a DATA_COLLECTION cycle. -/
theorem import_wellformed_inserts_all_witness :
    ∃ m u : Nat,
      (importPOST
        { employees := [{ id := "e1", email := some "a@co.com",
                          employeeId := some "E1" }],
          catalog := [], sodRules := [], dateParse := fun _ => none,
          now := 0 }
        (fun _ => true)
        { review := { id := "rc", status := .DATA_COLLECTION,
                      startedAt := some 1, snapshotDate := some 1 },
          accessRecords := [] }
        [{ username := "a", email := some "a@co.com", displayName := none,
           roles := none, lastLoginAt := none, grantDate := none },
         { username := "b", email := none, displayName := none,
           roles := none, lastLoginAt := none, grantDate := none }]).1 =
        .ok { imported := 2, matched := m, unmatched := u, errors := 0 } ∧
      m + u = 2 ∧
      (importPOST
        { employees := [{ id := "e1", email := some "a@co.com",
                          employeeId := some "E1" }],
          catalog := [], sodRules := [], dateParse := fun _ => none,
          now := 0 }
        (fun _ => true)
        { review := { id := "rc", status := .DATA_COLLECTION,
                      startedAt := some 1, snapshotDate := some 1 },
          accessRecords := [] }
        [{ username := "a", email := some "a@co.com", displayName := none,
           roles := none, lastLoginAt := none, grantDate := none },
         { username := "b", email := none, displayName := none,
           roles := none, lastLoginAt := none, grantDate := none }]).2.accessRecords =
        [] ++ ([{ username := "a", email := some "a@co.com",
                  displayName := none, roles := none, lastLoginAt := none,
                  grantDate := none },
                { username := "b", email := none, displayName := none,
                  roles := none, lastLoginAt := none,
                  grantDate := none }] : List ImportRecord).map
          (buildAccessRecord
            { employees := [{ id := "e1", email := some "a@co.com",
                              employeeId := some "E1" }],
              catalog := [], sodRules := [], dateParse := fun _ => none,
              now := 0 } "rc") ∧
      (([{ username := "a", email := some "a@co.com", displayName := none,
           roles := none, lastLoginAt := none, grantDate := none },
         { username := "b", email := none, displayName := none,
           roles := none, lastLoginAt := none,
           grantDate := none }] : List ImportRecord).map
        (buildAccessRecord
          { employees := [{ id := "e1", email := some "a@co.com",
                            employeeId := some "E1" }],
            catalog := [], sodRules := [], dateParse := fun _ => none,
            now := 0 } "rc")).length = 2 ∧
      ∀ rec ∈ ([{ username := "a", email := some "a@co.com",
                  displayName := none, roles := none, lastLoginAt := none,
                  grantDate := none },
                { username := "b", email := none, displayName := none,
                  roles := none, lastLoginAt := none,
                  grantDate := none }] : List ImportRecord).map
          (buildAccessRecord
            { employees := [{ id := "e1", email := some "a@co.com",
                              employeeId := some "E1" }],
              catalog := [], sodRules := [], dateParse := fun _ => none,
              now := 0 } "rc"),
        rec.reviewStatus = .PENDING ∧ rec.reviewCycleId = "rc" :=
  import_wellformed_inserts_all
    { employees := [{ id := "e1", email := some "a@co.com",
                      employeeId := some "E1" }],
      catalog := [], sodRules := [], dateParse := fun _ => none, now := 0 }
    { review := { id := "rc", status := .DATA_COLLECTION,
                  startedAt := some 1, snapshotDate := some 1 },
      accessRecords := [] }
    [{ username := "a", email := some "a@co.com", displayName := none,
       roles := none, lastLoginAt := none, grantDate := none },
     { username := "b", email := none, displayName := none, roles := none,
       lastLoginAt := none, grantDate := none }]
    (Or.inr rfl) (by decide)

/--
C2: for every ReviewCycle whose status is neither DRAFT nor
DATA_COLLECTION, an import request fails with the invalid-state error and
the whole database state (access records and the ReviewCycle) is left
unchanged: the rejection is atomic.
-/
theorem import_invalid_state_atomic_rejection (env : ImportEnv)
    (insertOk : ImportRecord → Bool) (db : ImportDb)
    (records : List ImportRecord)
    (h1 : db.review.status ≠ .DRAFT)
    (h2 : db.review.status ≠ .DATA_COLLECTION) :
    importPOST env insertOk db records = (.error .invalidState, db) := by
  unfold importPOST
  rw [if_neg]
  rintro (h | h)
  · exact h1 h
  · exact h2 h

/-- C2 witness: an import against a COMPLETED cycle is rejected whole. -/
theorem import_invalid_state_atomic_rejection_witness :
    importPOST
      { employees := [], catalog := [], sodRules := [],
        dateParse := fun _ => none, now := 5 }
      (fun _ => true)
      { review := { id := "rc2", status := .COMPLETED, startedAt := some 1,
                    snapshotDate := some 1 },
        accessRecords := [] }
      [{ username := "a", email := none, displayName := none, roles := none,
         lastLoginAt := none, grantDate := none }] =
      (.error .invalidState,
       { review := { id := "rc2", status := .COMPLETED, startedAt := some 1,
                     snapshotDate := some 1 },
         accessRecords := [] }) :=
  import_invalid_state_atomic_rejection
    { employees := [], catalog := [], sodRules := [],
      dateParse := fun _ => none, now := 5 }
    (fun _ => true)
    { review := { id := "rc2", status := .COMPLETED, startedAt := some 1,
                  snapshotDate := some 1 },
      accessRecords := [] }
    [{ username := "a", email := none, displayName := none, roles := none,
       lastLoginAt := none, grantDate := none }]
    (by decide) (by decide)

/--
C10: for every import invocation that returns a result (including ones
with per-record persistence failures), matched + unmatched equals the
number of validated input records and imported + errors equals that same
number, because identity matching is counted before the insert is
attempted; hence matched + unmatched = imported + errors.
-/
theorem import_count_identities (env : ImportEnv)
    (insertOk : ImportRecord → Bool) (db : ImportDb)
    (records : List ImportRecord) (res : ImportResult) (db' : ImportDb)
    (h : importPOST env insertOk db records = (.ok res, db')) :
    res.matched + res.unmatched = records.length ∧
      res.imported + res.errors = records.length ∧
      res.matched + res.unmatched = res.imported + res.errors := by
  unfold importPOST at h
  by_cases hst : db.review.status = .DRAFT ∨ db.review.status = .DATA_COLLECTION
  · rw [if_pos hst] at h
    have hcounts := importFoldl_counts env insertOk db.review.id records
      { matched := 0, unmatched := 0, inserted := [], errors := 0 }
    simp at hcounts
    have hres : res =
        { imported := (records.foldl (importStep env insertOk db.review.id)
            { matched := 0, unmatched := 0, inserted := [],
              errors := 0 }).inserted.length,
          matched := (records.foldl (importStep env insertOk db.review.id)
            { matched := 0, unmatched := 0, inserted := [],
              errors := 0 }).matched,
          unmatched := (records.foldl (importStep env insertOk db.review.id)
            { matched := 0, unmatched := 0, inserted := [],
              errors := 0 }).unmatched,
          errors := (records.foldl (importStep env insertOk db.review.id)
            { matched := 0, unmatched := 0, inserted := [],
              errors := 0 }).errors } := by
      have := congrArg Prod.fst h
      simp only at this
      exact (Except.ok.inj this).symm
    subst hres
    simp only
    omega
  · rw [if_neg hst] at h
    simp at h

/-- C10 witness: one record whose insert fails still keeps the counts in
balance. -/
theorem import_count_identities_witness :
    (0 : Nat) + 1 = 1 ∧ (0 : Nat) + 1 = 1 ∧ (0 : Nat) + 1 = 0 + 1 := by
  have h := import_count_identities
    { employees := [], catalog := [], sodRules := [],
      dateParse := fun _ => none, now := 0 }
    (fun _ => false)
    { review := { id := "rc3", status := .DATA_COLLECTION,
                  startedAt := some 1, snapshotDate := some 1 },
      accessRecords := [] }
    [{ username := "solo", email := none, displayName := none,
       roles := none, lastLoginAt := none, grantDate := none }]
    { imported := 0, matched := 0, unmatched := 1, errors := 1 }
    { review := { id := "rc3", status := .DATA_COLLECTION,
                  startedAt := some 1, snapshotDate := some 1 },
      accessRecords := [] }
    (by rfl)
  exact h

/--
C3: for every imported record, the persisted hasSodConflict flag is true
iff the list of role ids obtained by case-insensitive lookup of the
record's held role names in the application's role catalog contains both
role1Id and role2Id of at least one SoD conflict rule of the application.
-/
theorem sod_flag_iff_rule_covered (env : ImportEnv) (rid : String)
    (r : ImportRecord) :
    (buildAccessRecord env rid r).hasSodConflict = true ↔
      ∃ c ∈ env.sodRules,
        c.role1Id ∈ matchedRoleIds env.catalog (r.roles.getD []) ∧
        c.role2Id ∈ matchedRoleIds env.catalog (r.roles.getD []) := by
  simp [buildAccessRecord, computeSod, List.any_eq_true, Bool.and_eq_true,
    List.contains_eq_any_beq, List.any_eq_true, beq_iff_eq]

/--
C8: for every imported record, the persisted isDormant flag is true iff
lastLoginAt is present, parses to a timestamp, and that timestamp is at
least 90 days (in milliseconds) before "now"; an absent or unparseable
lastLoginAt gives isDormant = false.
-/
theorem dormant_flag_iff_90_days (env : ImportEnv) (rid : String)
    (r : ImportRecord) :
    (buildAccessRecord env rid r).isDormant = true ↔
      ∃ s t, r.lastLoginAt = some s ∧ env.dateParse s = some t ∧
        90 * msPerDay ≤ env.now - t := by
  have hdiv : ∀ x : Int, 90 ≤ x.fdiv msPerDay ↔ 90 * msPerDay ≤ x := by
    intro x
    rw [Int.fdiv_eq_ediv _ (by norm_num [msPerDay]),
      Int.le_ediv_iff_mul_le (by norm_num [msPerDay])]
  simp only [buildAccessRecord]
  unfold computeDormant
  cases hl : r.lastLoginAt with
  | none => simp
  | some s =>
    dsimp only
    cases hp : env.dateParse s with
    | none => simp [hp]
    | some t => simp [hp, hdiv]

/--
C4: for every finding update carrying a decision, the resulting status is
derived deterministically from the decision (REMEDIATE to
PENDING_REMEDIATION, EXCEPTION to EXCEPTION_APPROVED also stamping the
exception approver identity and timestamp, DISMISS to DISMISSED), and
decidedBy and decidedAt are set to non-null values.
-/
theorem decision_derives_status (userId : String) (now : Int) (f : Finding)
    (p : FindingUpdatePayload) (d : Decision) (hd : p.decision = some d) :
    (applyFindingUpdate userId now f p).decidedById = some userId ∧
    (applyFindingUpdate userId now f p).decidedAt = some now ∧
    (d = .REMEDIATE →
      (applyFindingUpdate userId now f p).status = .PENDING_REMEDIATION) ∧
    (d = .EXCEPTION →
      (applyFindingUpdate userId now f p).status = .EXCEPTION_APPROVED ∧
      (applyFindingUpdate userId now f p).exceptionApprovedById =
        some userId ∧
      (applyFindingUpdate userId now f p).exceptionApprovedAt = some now) ∧
    (d = .DISMISS →
      (applyFindingUpdate userId now f p).status = .DISMISSED) := by
  rcases p with ⟨st, dec, j, cc, rd, rt, ee⟩
  simp only at hd
  subst hd
  unfold applyFindingUpdate
  cases d <;> cases st <;> cases j <;> cases cc <;> cases rd <;>
    cases rt <;> cases ee <;> simp

/-- A concrete open finding for the C4 witness. -/
def c4Finding : Finding :=
  { reviewCycleId := "rc4", severity := .HIGH, status := .OPEN,
    decision := none, decidedById := none, decidedAt := none,
    decisionJustification := none, compensatingControls := none,
    remediationDueDate := none, remediationTicketId := none,
    exceptionExpiryDate := none, exceptionApprovedById := none,
    exceptionApprovedAt := none }

/-- A concrete EXCEPTION decision payload for the C4 witness. -/
def c4Payload : FindingUpdatePayload :=
  { status := none, decision := some .EXCEPTION,
    decisionJustification := some (some "low risk"),
    compensatingControls := some (some "weekly report"),
    remediationDueDate := none, remediationTicketId := none,
    exceptionExpiryDate := none }

/-- C4 witness: an EXCEPTION decision on a concrete open finding. -/
theorem decision_derives_status_witness :
    (applyFindingUpdate "u1" 7 c4Finding c4Payload).decidedById =
      some "u1" ∧
    (applyFindingUpdate "u1" 7 c4Finding c4Payload).decidedAt = some 7 ∧
    (Decision.EXCEPTION = .REMEDIATE →
      (applyFindingUpdate "u1" 7 c4Finding c4Payload).status =
        .PENDING_REMEDIATION) ∧
    (Decision.EXCEPTION = .EXCEPTION →
      (applyFindingUpdate "u1" 7 c4Finding c4Payload).status =
        .EXCEPTION_APPROVED ∧
      (applyFindingUpdate "u1" 7 c4Finding c4Payload).exceptionApprovedById =
        some "u1" ∧
      (applyFindingUpdate "u1" 7 c4Finding c4Payload).exceptionApprovedAt =
        some 7) ∧
    (Decision.EXCEPTION = .DISMISS →
      (applyFindingUpdate "u1" 7 c4Finding c4Payload).status =
        .DISMISSED) :=
  decision_derives_status "u1" 7 c4Finding c4Payload .EXCEPTION rfl

/-- The Bool status filter agrees with the propositional not-in-list form. -/
theorem isLiveStatus_eq_decide (st : FindingStatus) :
    isLiveStatus st =
      decide (st ∉ ([.REMEDIATED, .DISMISSED, .CLOSED] :
        List FindingStatus)) := by
  cases st <;> decide

/-- At most one of the four per-severity live counts fires per finding. -/
theorem four_severity_counts_le (fs : List Finding) :
    fs.countP (fun f => decide (f.severity = .CRITICAL) &&
        isLiveStatus f.status) +
      fs.countP (fun f => decide (f.severity = .HIGH) &&
        isLiveStatus f.status) +
      fs.countP (fun f => decide (f.severity = .MEDIUM) &&
        isLiveStatus f.status) +
      fs.countP (fun f => decide (f.severity = .LOW) &&
        isLiveStatus f.status) ≤ fs.length := by
  induction fs with
  | nil => simp
  | cons f fs ih =>
    simp only [List.countP_cons, List.length_cons]
    cases hsev : f.severity <;> cases hlive : isLiveStatus f.status <;>
      simp [hsev, hlive] <;> omega

/--
C5: after the aggregator runs over a review cycle's findings, each
per-severity counter equals the number of findings of that severity whose
status is not REMEDIATED, DISMISSED or CLOSED, totalFindings equals the
number of all findings of the cycle, and the four per-severity counters
sum to at most totalFindings.
-/
theorem aggregator_counts_correct (fs : List Finding) :
    (updateReviewCycleCounts fs).criticalFindings =
      (fs.filter fun f => f.severity = .CRITICAL ∧
        f.status ∉ ([.REMEDIATED, .DISMISSED, .CLOSED] :
          List FindingStatus)).length ∧
    (updateReviewCycleCounts fs).highFindings =
      (fs.filter fun f => f.severity = .HIGH ∧
        f.status ∉ ([.REMEDIATED, .DISMISSED, .CLOSED] :
          List FindingStatus)).length ∧
    (updateReviewCycleCounts fs).mediumFindings =
      (fs.filter fun f => f.severity = .MEDIUM ∧
        f.status ∉ ([.REMEDIATED, .DISMISSED, .CLOSED] :
          List FindingStatus)).length ∧
    (updateReviewCycleCounts fs).lowFindings =
      (fs.filter fun f => f.severity = .LOW ∧
        f.status ∉ ([.REMEDIATED, .DISMISSED, .CLOSED] :
          List FindingStatus)).length ∧
    (updateReviewCycleCounts fs).totalFindings = fs.length ∧
    (updateReviewCycleCounts fs).criticalFindings +
        (updateReviewCycleCounts fs).highFindings +
        (updateReviewCycleCounts fs).mediumFindings +
        (updateReviewCycleCounts fs).lowFindings ≤
      (updateReviewCycleCounts fs).totalFindings := by
  have hsev : ∀ sev : Severity,
      fs.countP (fun f => decide (f.severity = sev) &&
        isLiveStatus f.status) =
      (fs.filter fun f => decide (f.severity = sev ∧
        f.status ∉ ([.REMEDIATED, .DISMISSED, .CLOSED] :
          List FindingStatus))).length := by
    intro sev
    rw [← List.countP_eq_length_filter]
    apply List.countP_congr
    intro f _
    rw [isLiveStatus_eq_decide]
    simp
  refine ⟨hsev .CRITICAL, hsev .HIGH, hsev .MEDIUM, hsev .LOW, rfl, ?_⟩
  exact four_severity_counts_le fs

/-- A concrete environment for exercising the DRAFT transition. -/
def c6Env : ImportEnv :=
  { employees := [], catalog := [], sodRules := [],
    dateParse := fun _ => none, now := 42 }

/-- A concrete DRAFT review cycle with no access records. -/
def c6Db : ImportDb :=
  { review := { id := "rc6", status := .DRAFT, startedAt := none,
                snapshotDate := none },
    accessRecords := [] }

/--
C6 counterexample: importing an empty record list into a DRAFT cycle still
transitions it to DATA_COLLECTION although zero records were persisted, so
the transition does not require at least one successfully persisted
record.
-/
theorem draft_transition_without_persisted_record :
    ¬ ((importPOST c6Env (fun _ => true) c6Db []).2.review.status =
          .DATA_COLLECTION →
        0 < (importPOST c6Env (fun _ => true) c6Db []).2.accessRecords.length) := by
  decide

/--
C6 (amended): when the Import Pipeline is invoked on a ReviewCycle in
DRAFT status and the request passes the state check, the cycle transitions
to DATA_COLLECTION with startedAt and snapshotDate stamped to now,
regardless of how many records were persisted (including zero); an import
against a cycle already in DATA_COLLECTION leaves the ReviewCycle row
unchanged, so the transition happens exactly on the first accepted import
request.
-/
theorem import_draft_transition_stamps (env : ImportEnv)
    (insertOk : ImportRecord → Bool) (db : ImportDb)
    (records : List ImportRecord)
    (h : db.review.status = .DRAFT ∨ db.review.status = .DATA_COLLECTION) :
    (db.review.status = .DRAFT →
      (importPOST env insertOk db records).2.review.status =
        .DATA_COLLECTION ∧
      (importPOST env insertOk db records).2.review.startedAt =
        some env.now ∧
      (importPOST env insertOk db records).2.review.snapshotDate =
        some env.now) ∧
    (db.review.status = .DATA_COLLECTION →
      (importPOST env insertOk db records).2.review = db.review) := by
  unfold importPOST
  rw [if_pos h]
  dsimp only
  constructor
  · intro hd
    simp [hd]
  · intro hd
    simp [hd]

/-- C6 witness: the empty import on the concrete DRAFT cycle stamps it. -/
theorem import_draft_transition_stamps_witness :
    (c6Db.review.status = .DRAFT →
      (importPOST c6Env (fun _ => true) c6Db []).2.review.status =
        .DATA_COLLECTION ∧
      (importPOST c6Env (fun _ => true) c6Db []).2.review.startedAt =
        some c6Env.now ∧
      (importPOST c6Env (fun _ => true) c6Db []).2.review.snapshotDate =
        some c6Env.now) ∧
    (c6Db.review.status = .DATA_COLLECTION →
      (importPOST c6Env (fun _ => true) c6Db []).2.review = c6Db.review) :=
  import_draft_transition_stamps c6Env (fun _ => true) c6Db []
    (Or.inl rfl)

/--
Spec-side scorer over the persisted Application, following the claim's
words: the sum of the fixed weights of exactly those tracked fields of the
persisted row that are non-null and, for strings, non-blank after
trimming.
-/
def specPersistedCompleteness (a : PersistedApplication) : Nat :=
  (if fieldCounted (some a.name) then 10 else 0) +
  (if fieldCounted a.description then 10 else 0) +
  (if fieldCounted a.vendor then 10 else 0) +
  (if fieldCounted a.systemOwner then 10 else 0) +
  (if fieldCounted a.businessUnit then 10 else 0) +
  (if fieldCounted a.purpose then 15 else 0) +
  (if fieldCounted a.typicalUsers then 10 else 0) +
  (if fieldCounted a.sensitiveFunctions then 10 else 0) +
  (if fieldCounted a.accessRequestProcess then 5 else 0) +
  (if fieldCounted a.frameworkId then 10 else 0)

/--
Spec-side weighted sum over the request fields, with frameworkId taken as
supplied in the request, before the default-framework substitution.
-/
def specRequestCompleteness (d : AppCreateData) : Nat :=
  ([(10, some d.name), (10, d.description), (10, d.vendor),
    (10, d.systemOwner), (10, d.businessUnit), (15, d.purpose),
    (10, d.typicalUsers), (10, d.sensitiveFunctions),
    (5, d.accessRequestProcess), (10, d.frameworkId)] :
      List (Nat × Option String)).foldl
    (fun acc wf => if fieldCounted wf.2 then acc + wf.1 else acc) 0

/-- A concrete create request with only a name, and no frameworkId. -/
def c7Data : AppCreateData :=
  { name := "Ledger", description := none, vendor := none,
    systemOwner := none, businessUnit := none, purpose := none,
    typicalUsers := none, sensitiveFunctions := none,
    accessRequestProcess := none, frameworkId := none }

/--
C7 counterexample: with a default framework configured and no frameworkId
in the request, the persisted application carries the default frameworkId
(non-null) but the stored score was computed before the substitution, so
it differs from the weighted sum over the persisted application's
fields (10 stored versus 20 over the persisted row).
-/
theorem completeness_persisted_mismatch :
    (applicationsPOST (some "fw1") c7Data).profileCompleteness ≠
      specPersistedCompleteness (applicationsPOST (some "fw1") c7Data) := by
  decide

/-- Helper bound: a weight-or-zero conditional is at most the weight. -/
theorem iteWeightLe (b : Bool) (w : Nat) : (if b then w else 0) ≤ w := by
  cases b <;> simp

/--
C7 (amended): for every application create request, the stored
profileCompleteness equals the weighted sum over the request's tracked
fields (frameworkId counted only as supplied in the request, before the
default-framework substitution), and the score lies in [0,100].
-/
theorem completeness_from_request_bounded (defaultFw : Option String)
    (d : AppCreateData) :
    (applicationsPOST defaultFw d).profileCompleteness =
      specRequestCompleteness d ∧
    (applicationsPOST defaultFw d).profileCompleteness ≤ 100 := by
  have hif : ∀ (acc w : Nat) (v : Option String),
      (if fieldCounted v then acc + w else acc) =
        acc + (if fieldCounted v then w else 0) := by
    intro acc w v
    split <;> simp
  have heq : specRequestCompleteness d = calculateCompleteness d := by
    simp only [specRequestCompleteness, List.foldl_cons, List.foldl_nil, hif,
      calculateCompleteness]
    omega
  have hle : calculateCompleteness d ≤ 100 := by
    unfold calculateCompleteness
    have h1 := iteWeightLe (fieldCounted (some d.name)) 10
    have h2 := iteWeightLe (fieldCounted d.description) 10
    have h3 := iteWeightLe (fieldCounted d.vendor) 10
    have h4 := iteWeightLe (fieldCounted d.systemOwner) 10
    have h5 := iteWeightLe (fieldCounted d.businessUnit) 10
    have h6 := iteWeightLe (fieldCounted d.purpose) 15
    have h7 := iteWeightLe (fieldCounted d.typicalUsers) 10
    have h8 := iteWeightLe (fieldCounted d.sensitiveFunctions) 10
    have h9 := iteWeightLe (fieldCounted d.accessRequestProcess) 5
    have h10 := iteWeightLe (fieldCounted d.frameworkId) 10
    omega
  exact ⟨heq.symm, hle⟩

/--
C9: starting from any conflict set satisfying the SoD invariant (no row
pairs a role with itself; at most one row per unordered role pair per
application), a create request pairing a role with itself or re-pairing an
already-present pair (in either orientation) is rejected, and any accepted
create keeps the invariant.
-/
theorem sod_create_preserves_invariant (appId : String)
    (roles : List RoleRow) (rows : List SodConflictRow)
    (role1Id role2Id : String) (hinv : sodInvariant rows) :
    (role1Id = role2Id →
      ∀ rows', sodConflictPOST appId roles rows role1Id role2Id ≠
        .ok rows') ∧
    ((∃ c ∈ rows,
        samePair c (⟨appId, role1Id, role2Id⟩ : SodConflictRow)) →
      ∀ rows', sodConflictPOST appId roles rows role1Id role2Id ≠
        .ok rows') ∧
    (∀ rows', sodConflictPOST appId roles rows role1Id role2Id =
        .ok rows' → sodInvariant rows') := by
  refine ⟨?_, ?_, ?_⟩
  · intro heq rows'
    subst heq
    unfold sodConflictPOST
    split_ifs with h1 h2 h3 <;> try simp
    exact absurd (beq_self_eq_true role1Id) h2
  · rintro ⟨c, hc, hpair⟩ rows'
    unfold samePair at hpair
    unfold sodConflictPOST
    split_ifs with h1 h2 h3 <;> try simp
    exfalso
    apply h3
    rw [List.any_eq_true]
    refine ⟨c, hc, ?_⟩
    obtain ⟨p1, p2⟩ := hpair
    rcases p2 with ⟨x, y⟩ | ⟨x, y⟩ <;> simp [p1, x, y]
  · intro rows' hok
    unfold sodConflictPOST at hok
    split_ifs at hok with h1 h2 h3
    obtain rfl := (Except.ok.inj hok).symm
    constructor
    · intro r hr
      rcases List.mem_append.mp hr with h | h
      · exact hinv.1 r h
      · simp only [List.mem_singleton] at h
        subst h
        intro hcon
        dsimp only at hcon
        exact h2 (by simp [hcon])
    · rw [List.pairwise_append]
      refine ⟨hinv.2, List.pairwise_singleton _ _, ?_⟩
      intro a ha b hb
      simp only [List.mem_singleton] at hb
      subst hb
      unfold samePair
      intro hpair
      apply h3
      rw [List.any_eq_true]
      refine ⟨a, ha, ?_⟩
      obtain ⟨p1, p2⟩ := hpair
      rcases p2 with ⟨x, y⟩ | ⟨x, y⟩ <;> simp [p1, x, y]

/-- C9 witness: a concrete conflict set with one row, exercising rejection
of the duplicate pair and acceptance of a fresh one. -/
theorem sod_create_preserves_invariant_witness :
    ("rA" = "rB" →
      ∀ rows', sodConflictPOST "app"
        [{ id := "rA", applicationId := "app" },
         { id := "rB", applicationId := "app" }]
        [{ applicationId := "app", role1Id := "rA", role2Id := "rB" }]
        "rA" "rB" ≠ .ok rows') ∧
    ((∃ c ∈ [(⟨"app", "rA", "rB"⟩ : SodConflictRow)],
        samePair c (⟨"app", "rA", "rB"⟩ : SodConflictRow)) →
      ∀ rows', sodConflictPOST "app"
        [{ id := "rA", applicationId := "app" },
         { id := "rB", applicationId := "app" }]
        [{ applicationId := "app", role1Id := "rA", role2Id := "rB" }]
        "rA" "rB" ≠ .ok rows') ∧
    (∀ rows', sodConflictPOST "app"
        [{ id := "rA", applicationId := "app" },
         { id := "rB", applicationId := "app" }]
        [{ applicationId := "app", role1Id := "rA", role2Id := "rB" }]
        "rA" "rB" = .ok rows' → sodInvariant rows') :=
  sod_create_preserves_invariant "app"
    [{ id := "rA", applicationId := "app" },
     { id := "rB", applicationId := "app" }]
    [{ applicationId := "app", role1Id := "rA", role2Id := "rB" }]
    "rA" "rB" (by decide)

end Sap
